import Mathlib

/-!
Verification development for the temporal builtin functions of the
vitess `evalengine` package (file `fn_time.go`).

The Go source is shallowly embedded: each builtin's `eval`, `typeof` and
`compile` methods become Lean functions over an explicit value model.
Machine integers are modelled as `Int` with explicit wrapping where the
source converts between widths; Go `float64` values appear only as kind
dispatch tags and exact small constants, modelled by `Rat`; fallible
evaluation returns `Option` (soft null) inside `Except` (hard error).
Parts of the repository that live outside this file (the conversion
library, the `datetime` package) are passed in as explicit function
parameters or modelled from the specification, as noted per definition.
-/

namespace EvalEngine

/-- SQL type tags used by the builtins in this file (subset of `sqltypes`). -/
inductive SqlType where
  | int64
  | uint64
  | float64
  | decimal
  | varchar
  | varbinary
  | char
  | date
  | time
  | datetime
  | timestamp
  deriving DecidableEq

/-- Nullability / ambiguity flag set attached to an inferred type
(`typeFlag` in the source, a bitmask; modelled as a record of bits). -/
structure TypeFlag where
  nullable : Bool
  ambiguous : Bool
  deriving DecidableEq

/-- The empty flag set (the `0` bitmask in the source). -/
def TypeFlag.zero : TypeFlag := ⟨false, false⟩

/-- Bitwise-or of two flag sets (`f1 | f2` in the source). -/
def TypeFlag.or (a b : TypeFlag) : TypeFlag :=
  ⟨a.nullable || b.nullable, a.ambiguous || b.ambiguous⟩

/-- The `flagNullable` bit. -/
def flagNullable : TypeFlag := ⟨true, false⟩

/-- The `flagAmbiguousType` bit. -/
def flagAmbiguousType : TypeFlag := ⟨false, true⟩

/-- Collation identifiers are opaque numeric ids in this engine. -/
abbrev CollationId := Nat

/-- The binary collation id. -/
def collationBinary : CollationId := (63 : Nat)

/-- The numeric collation id. -/
def collationNumeric : CollationId := (8 : Nat)

/-- `defaultCoercionCollation` attaches coercion rules to a collation id;
only the id matters for the properties proved here. -/
def defaultCoercionCollation (c : CollationId) : CollationId := c

/-- Gregorian leap-year test, as used by Go's `time` package. -/
def isLeap (y : Int) : Bool :=
  (y % 4 == 0 && y % 100 != 0) || (y % 400 == 0)

/-- Days from civil date (y, m, d) to the day count with epoch
1970-01-01 = day 0; standard civil-from-days arithmetic equivalent to
Go's `time.Date` day computation. -/
def daysFromCivil (y m d : Int) : Int :=
  let y' := if m ≤ 2 then y - 1 else y
  let era := Int.fdiv y' 400
  let yoe := y' - era * 400
  let mp := Int.emod (m + 9) 12
  let doy := Int.fdiv (153 * mp + 2) 5 + d - 1
  let doe := yoe * 365 + Int.fdiv yoe 4 - Int.fdiv yoe 100 + doy
  era * 146097 + doe - 719468

/-- Civil date (y, m, d) from a day count with epoch 1970-01-01 = day 0;
inverse of `daysFromCivil`. -/
def civilFromDays (z : Int) : Int × Int × Int :=
  let z' := z + 719468
  let era := Int.fdiv z' 146097
  let doe := z' - era * 146097
  let yoe := Int.fdiv (doe - Int.fdiv doe 1460 + Int.fdiv doe 36524 - Int.fdiv doe 146096) 365
  let y := yoe + era * 400
  let doy := doe - (365 * yoe + Int.fdiv yoe 4 - Int.fdiv yoe 100)
  let mp := Int.fdiv (5 * doy + 2) 153
  let d := doy - Int.fdiv (153 * mp + 2) 5 + 1
  let m := mp + (if mp < 10 then 3 else -9)
  (if m ≤ 2 then y + 1 else y, m, d)

/-- Go `time.Weekday` of a day count (1970-01-01, day 0, was a Thursday;
Sunday = 0). -/
def weekdayOfDays (z : Int) : Int :=
  Int.emod (z + 4) 7

/-- A calendar date as held by `datetime.Date` (year, month, day;
the all-zero value is the MySQL zero date). -/
structure DateV where
  year : Int
  month : Int
  day : Int
  deriving DecidableEq

/-- The MySQL zero date `0000-00-00`. -/
def zeroDateV : DateV := ⟨0, 0, 0⟩

/-- `datetime.Date.IsZero`: all components zero. -/
def DateV.isZero (d : DateV) : Bool :=
  d.year == 0 && d.month == 0 && d.day == 0

/-- A wall-clock datetime as held by `datetime.DateTime` (civil date plus
time-of-day with nanoseconds). -/
structure DateTimeV where
  date : DateV
  hour : Int
  minute : Int
  second : Int
  nano : Int
  deriving DecidableEq

/-- `datetime.DateTime.IsZero`: date and time all zero. -/
def DateTimeV.isZero (dt : DateTimeV) : Bool :=
  dt.date.isZero && dt.hour == 0 && dt.minute == 0 && dt.second == 0 && dt.nano == 0

/-- Wall-clock datetime from a Unix instant shifted into a fixed-offset
timezone; models `time.Unix(sec, nsec).In(tz)` followed by
`datetime.NewDateTimeFromStd`. -/
def dtFromUnix (sec nsec tzOff : Int) : DateTimeV :=
  let total := (sec + tzOff) * 1000000000 + nsec
  let wallSec := Int.fdiv total 1000000000
  let nano := Int.emod total 1000000000
  let days := Int.fdiv wallSec 86400
  let sod := Int.emod wallSec 86400
  let c := civilFromDays days
  ⟨⟨c.1, c.2.1, c.2.2⟩, Int.fdiv sod 3600, Int.emod (Int.fdiv sod 60) 60, Int.emod sod 60, nano⟩

/-- Seconds since the Unix epoch of a wall-clock datetime read in a
fixed-offset timezone; models `datetime.DateTime.ToStdTime(tz).Unix()`. -/
def DateTimeV.unix (dt : DateTimeV) (tzOff : Int) : Int :=
  daysFromCivil dt.date.year dt.date.month dt.date.day * 86400
    + dt.hour * 3600 + dt.minute * 60 + dt.second - tzOff

/-- Runtime value model (`eval` in the source): a closed tagged union of
the value kinds the temporal builtins dispatch on. Go `nil` (SQL null) is
represented by `Option EvalV` at the evaluation level. `float64` is
modelled by `Rat` (exact on every value these claims evaluate); a decimal
is a mantissa with an explicit scale (`length` in the source). -/
inductive EvalV where
  | vInt (i : Int)
  | vUint (u : Nat)
  | vFloat (q : Rat)
  | vDecimal (val : Rat) (length : Nat)
  | vBytes (s : String) (hexLit bitLit : Bool)
  | vDate (d : DateV)
  | vTime (neg : Bool) (hh mm ss : Int) (nano : Int) (prec : Nat)
  | vDateTime (dt : DateTimeV) (prec : Nat)
  deriving DecidableEq

/-- `evalBytes.isHexOrBitLiteral`: a byte string flagged as a hexadecimal
or bit literal (and `false` for every non-bytes kind). -/
def EvalV.isHexOrBitLiteral : EvalV → Bool
  | .vBytes _ hexLit bitLit => hexLit || bitLit
  | _ => false

/-- Hard-error channel marker (`error` results of `eval`). -/
inductive EvalErr where
  | err
  deriving DecidableEq

/-- Wrap a `Nat` into a signed 64-bit integer the way Go's `int64(u)`
conversion does for a `uint64` operand. -/
def wrapInt64 (u : Nat) : Int :=
  let r := u % 18446744073709551616
  if r < 9223372036854775808 then (r : Int) else (r : Int) - 18446744073709551616

/-- Modelled from the spec: `datetime.IntervalType` (defined outside this
file) enumerates the interval unit tokens of the add/subtract-interval
family — single units like year/quarter/month/week/day and
hour/minute/second/microsecond, and composite units like day-hour. -/
inductive IntervalType where
  | year
  | quarter
  | month
  | week
  | day
  | hour
  | minute
  | second
  | microsecond
  | yearMonth
  | dayHour
  | dayMinute
  | daySecond
  | dayMicrosecond
  | hourMinute
  | hourSecond
  | hourMicrosecond
  | minuteSecond
  | minuteMicrosecond
  | secondMicrosecond
  deriving DecidableEq

/-- Modelled from the spec: a unit carries date components exactly when it
mentions a calendar granularity (year/quarter/month/week/day), alone or in
a composite. -/
def IntervalType.HasDateParts : IntervalType → Bool
  | .year | .quarter | .month | .week | .day => true
  | .yearMonth => true
  | .dayHour | .dayMinute | .daySecond | .dayMicrosecond => true
  | _ => false

/-- Modelled from the spec: a unit carries time components exactly when it
mentions a clock granularity (hour/minute/second/microsecond), alone or in
a composite. -/
def IntervalType.HasTimeParts : IntervalType → Bool
  | .hour | .minute | .second | .microsecond => true
  | .dayHour | .dayMinute | .daySecond | .dayMicrosecond => true
  | .hourMinute | .hourSecond | .hourMicrosecond => true
  | .minuteSecond | .minuteMicrosecond => true
  | .secondMicrosecond => true
  | _ => false

/-- Compiled type descriptor (`ctype` in the source): result type tag
(`Type`), collation id (`Col`) and flag set (`Flag`); the first field is
renamed `typ` because `Type` is reserved in Lean. -/
structure Ctype where
  typ : SqlType
  col : CollationId
  flag : TypeFlag
  deriving DecidableEq

/-- The `builtinDateMath` call node: DATE_ADD/DATE_SUB with its
direction bit, interval unit and collation metadata. -/
structure builtinDateMath where
  sub : Bool
  unit : IntervalType
  collate : CollationId

/-- `builtinDateMath.typeof`, as a function of the static type and flags
reported for `Arguments[0]`. -/
def builtinDateMath.typeof (call : builtinDateMath) (tt : SqlType) (f : TypeFlag) :
    SqlType × TypeFlag :=
  if tt = .date ∧ ¬ call.unit.HasTimeParts then
    (.date, f.or flagNullable)
  else if tt = .time ∧ ¬ call.unit.HasDateParts then
    (.time, f.or flagNullable)
  else if tt = .datetime ∨ tt = .timestamp ∨ (tt = .date ∧ call.unit.HasTimeParts)
      ∨ (tt = .time ∧ call.unit.HasDateParts) then
    (.datetime, f.or flagNullable)
  else
    (.char, f.or flagNullable)

/-- Opcodes emitted by `builtinDateMath.compile` (only the function's own
opcode is distinguished; argument subprograms are the compiler's input). -/
inductive DateMathOp where
  | fn_DATEADD_D (unit : IntervalType) (sub : Bool)
  | fn_DATEADD_s (unit : IntervalType) (sub : Bool) (col : CollationId)
  deriving DecidableEq

/-- `builtinDateMath.compile`, as a function of the compiled `ctype` of
`Arguments[0]` and the compiler's configured collation; returns the opcode
emitted after the argument subprograms together with the returned type
descriptor. -/
def builtinDateMath.compile (call : builtinDateMath) (date : Ctype) (cfgCollation : CollationId) :
    DateMathOp × Ctype :=
  let flag := date.flag.or flagNullable
  if date.typ = .date ∧ ¬ call.unit.HasTimeParts then
    (.fn_DATEADD_D call.unit call.sub, ⟨.date, collationBinary, flag⟩)
  else if date.typ = .time ∧ ¬ call.unit.HasDateParts then
    (.fn_DATEADD_D call.unit call.sub, ⟨.time, collationBinary, flag⟩)
  else if date.typ = .datetime ∨ date.typ = .timestamp
      ∨ (date.typ = .date ∧ call.unit.HasTimeParts)
      ∨ (date.typ = .time ∧ call.unit.HasDateParts) then
    (.fn_DATEADD_D call.unit call.sub, ⟨.datetime, collationBinary, flag⟩)
  else
    let col := defaultCoercionCollation cfgCollation
    (.fn_DATEADD_s call.unit call.sub col, ⟨.varchar, col, flag⟩)

/-- `clampHourMinute`: clamp an out-of-range hour to ±838 (forcing the
minute to 59 on clamp) and split off the sign. -/
def clampHourMinute (h m : Int) : Int × Int × Bool × Bool :=
  let clamped := h > 838 ∨ h < -838
  let h1 := if h > 838 ∨ h < -838 then (if h > 0 then 838 else -838) else h
  let m1 := if h > 838 ∨ h < -838 then 59 else m
  let neg := h1 < 0
  let h2 := if neg then -h1 else h1
  (h2, m1, neg, decide clamped)

/-- `makeTime_i`: MAKETIME on an integer seconds operand, producing the
packed `hhmmss` integer representation, or `none` where the source
returns `(0, false)`. -/
def makeTime_i (h m s : Int) : Option Int :=
  if m < 0 ∨ m > 59 ∨ s < 0 ∨ s > 59 then none
  else
    let c := clampHourMinute h m
    let s1 := if c.2.2.2 then 59 else s
    let v := c.1 * 10000 + c.2.1 * 100 + s1
    some (if c.2.2.1 then -v else v)

/-- `makeTime_d`: MAKETIME on a decimal seconds operand (the decimal's
numeric value modelled exactly by `Rat`). -/
def makeTime_d (h m : Int) (s : Rat) : Option Rat :=
  if m < 0 ∨ m > 59 ∨ s < 0 ∨ s ≥ 60 then none
  else
    let c := clampHourMinute h m
    let s1 := if c.2.2.2 then (59 : Rat) else s
    let dec := ((c.1 * 10000 + c.2.1 * 100 : Int) : Rat) + s1
    some (if c.2.2.1 then -dec else dec)

/-- `makeTime_f`: MAKETIME on a float seconds operand (`float64` modelled
by `Rat`; every comparison and addition used here is exact on the values
the claims evaluate). -/
def makeTime_f (h m : Int) (s : Rat) : Option Rat :=
  if m < 0 ∨ m > 59 ∨ s < 0 ∨ s ≥ 60 then none
  else
    let c := clampHourMinute h m
    let s1 := if c.2.2.2 then (59 : Rat) else s
    let v := ((c.1 * 10000 + c.2.1 * 100 : Int) : Rat) + s1
    some (if c.2.2.1 then -v else v)

/-- The two-digit-year pivot inlined at the top of `yearDayToTime`:
years 0–69 map to 2000–2069, years 70–99 map to 1900–1999. -/
def pivotYear (y : Int) : Int :=
  if 0 ≤ y ∧ y < 100 then (if y < 70 then y + 2000 else y + 1900) else y

/-- `yearDayToTime`: MAKEDATE's calendar core — pivot a two-digit year,
range-check, then add `yd - 1` days to January 1st of the year
(`time.Date(y, 1, 1).AddDate(0, 0, yd-1)`); `none` models the zero
`time.Time`. -/
def yearDayToTime (y yd : Int) : Option DateV :=
  let y1 := pivotYear y
  if y1 < 0 ∨ y1 > 9999 ∨ yd < 1 ∨ yd > 2147483647 then none
  else
    let c := civilFromDays (daysFromCivil y1 1 1 + (yd - 1))
    if c.1 > 9999 then none else some ⟨c.1, c.2.1, c.2.2⟩

/-- Modelled from the spec: the conversion/temporal library (the
`evalTo*` coercions, hex-literal reinterpretation, week numbering and
temporal coercions of the `datetime` package) is defined outside this
file; each behavior the builtins consume enters as an explicit function
parameter, so the theorems below hold for every implementation of it. -/
structure ConvLib where
  parseFloat : String → Rat
  hexVal : String → Nat
  coerceI64 : EvalV → Int
  parseDate : EvalV → Option DateV
  parseDateTime : EvalV → Option (DateTimeV × Nat)
  timeToDate : EvalV → DateV
  timeToDateTime : EvalV → DateTimeV
  tempToInt : EvalV → Int
  tempToDec : EvalV → Rat
  week : DateV → Int → Int
  yearWeek : DateV → Int → Int
  isoWeek : DateV → Int × Int

/-- A concrete (arbitrary) instantiation of the conversion library,
used to evaluate the parameterized definitions at concrete inputs. -/
def trivLib : ConvLib where
  parseFloat := fun _ => 0
  hexVal := fun _ => 0
  coerceI64 := fun _ => 0
  parseDate := fun _ => none
  parseDateTime := fun _ => none
  timeToDate := fun _ => zeroDateV
  timeToDateTime := fun _ => ⟨zeroDateV, 0, 0, 0, 0⟩
  tempToInt := fun _ => 0
  tempToDec := fun _ => 0
  week := fun _ _ => 0
  yearWeek := fun _ _ => 0
  isoWeek := fun _ => (0, 0)

/-- `evalToInt64`: signed-integer coercion of a runtime value; the integer
kinds convert directly, every other kind goes through the library's
parse-based coercion. -/
def evalToInt64 (lib : ConvLib) : EvalV → Int
  | .vInt i => i
  | .vUint u => wrapInt64 u
  | v => lib.coerceI64 v

/-- `evalToDate`: date coercion of a runtime value — temporal kinds
convert structurally, other kinds go through parsing, with soft null
(`none`) on failure. -/
def evalToDate (lib : ConvLib) : EvalV → Option DateV
  | .vDate d => some d
  | .vDateTime dt _ => some dt.date
  | .vTime neg hh mm ss ns p => some (lib.timeToDate (.vTime neg hh mm ss ns p))
  | v => lib.parseDate v

/-- Truncate a rational toward zero, the way Go converts a float or a
decimal integer quotient to an integer (`int64(f)` / `QuoRem(1, 0)`). -/
def ratTruncToInt (q : Rat) : Int :=
  Int.tdiv q.num (q.den : Int)

/-- `math.Modf` followed by the source's fractional decomposition: split
a value into truncated integral seconds and the fractional part scaled to
nanoseconds (both truncated toward zero). -/
def modfSecNano (f : Rat) : Int × Int :=
  let sf := ratTruncToInt f
  let ff := f - (sf : Rat)
  (sf, ratTruncToInt (ff * 1000000000))

/-- Execution environment slice used by these builtins: the per-statement
cached instant (`env.now`, seconds since the Unix epoch) and the session
timezone as a fixed offset in seconds (`env.currentTimezone`; the `nil`
timezone denotes the process-local zone, itself an offset). Modelled from
the spec: the environment caches the first current-instant read of the
statement and serves it to every clock-reading call. -/
structure Env where
  now : Nat
  tzOffset : Int

/-- `env.time(utc)`: the cached statement instant as a wall-clock
datetime, in UTC or in the session timezone. -/
def Env.time (env : Env) (utc : Bool) : DateTimeV :=
  dtFromUnix (env.now : Int) 0 (if utc then 0 else env.tzOffset)

/-- A `newEvalRaw` result: the type tag plus the formatted temporal
content (fields not printed by the chosen format are zeroed) and the
fractional precision used by the format. -/
structure RawRes where
  typ : SqlType
  buf : DateTimeV
  prec : Nat
  deriving DecidableEq

/-- The `builtinNow` call node (NOW, CURRENT_TIME, UTC_TIMESTAMP, ...):
UTC bit, time-only bit, and fractional precision. -/
structure builtinNow where
  utc : Bool
  onlyTime : Bool
  prec : Nat

/-- `builtinNow.eval`: formats the environment's cached instant. The
ambient system clock (`sys`, the value `SystemTime()` would currently
return) is threaded explicitly through every clock builtin's eval; this
body never reads it. -/
def builtinNow.eval (call : builtinNow) (env : Env) (_sys : Nat) : RawRes :=
  let now := env.time call.utc
  if call.onlyTime then
    ⟨.time, ⟨zeroDateV, now.hour, now.minute, now.second, now.nano⟩, call.prec⟩
  else
    ⟨.datetime, now, call.prec⟩

/-- `builtinNow.typeof`. -/
def builtinNow.typeof (call : builtinNow) : SqlType × TypeFlag :=
  if call.onlyTime then (.time, .zero) else (.datetime, .zero)

/-- The `builtinSysdate` call node. -/
structure builtinSysdate where
  prec : Nat

/-- `builtinSysdate.eval`: reads the live system clock (`SystemTime()`),
not the environment's cached instant, and renders it in the session
timezone. -/
def builtinSysdate.eval (call : builtinSysdate) (env : Env) (sys : Nat) : RawRes :=
  ⟨.datetime, dtFromUnix (sys : Int) 0 env.tzOffset, call.prec⟩

/-- `builtinSysdate.typeof`. -/
def builtinSysdate.typeof (_ : builtinSysdate) : SqlType × TypeFlag :=
  (.datetime, .zero)

/-- `builtinCurdate.eval`: the date part of the cached instant in the
session timezone. -/
def builtinCurdate.eval (env : Env) (_sys : Nat) : RawRes :=
  ⟨.date, ⟨(env.time false).date, 0, 0, 0, 0⟩, 0⟩

/-- `builtinCurdate.typeof`. -/
def builtinCurdate.typeof : SqlType × TypeFlag :=
  (.date, .zero)

/-- `builtinUtcDate.eval`: the date part of the cached instant in UTC. -/
def builtinUtcDate.eval (env : Env) (_sys : Nat) : RawRes :=
  ⟨.date, ⟨(env.time true).date, 0, 0, 0, 0⟩, 0⟩

/-- `builtinUtcDate.typeof`. -/
def builtinUtcDate.typeof : SqlType × TypeFlag :=
  (.date, .zero)

/-- `dateTimeUnixTimestamp`: the shared core of one-argument
UNIX_TIMESTAMP.  A temporal argument converts structurally; any other
kind goes through datetime parsing (`evalToDateTime(date, -1)`, the
library parameter `parseDateTime`), and on failure or a zero datetime
falls back to integer zero or decimal zero with kind-derived scale —
never null. -/
def dateTimeUnixTimestamp (lib : ConvLib) (env : Env) (date : EvalV) : EvalV :=
  let finish : DateTimeV × Nat → EvalV := fun dtp =>
    let ts := dtp.1.unix env.tzOffset
    if dtp.2 = 0 then .vInt ts
    else .vDecimal ((ts : Rat) + (dtp.1.nano : Rat) / 1000000000) dtp.2
  match date with
  | .vDate d => finish (⟨d, 0, 0, 0, 0⟩, 0)
  | .vTime neg hh mm ss ns p => finish (lib.timeToDateTime (.vTime neg hh mm ss ns p), p)
  | .vDateTime dt p => finish (dt, p)
  | _ =>
    match lib.parseDateTime date with
    | some dtp =>
      if dtp.1.isZero then
        match date with
        | .vInt _ => .vInt 0
        | .vUint _ => .vInt 0
        | .vDecimal _ len => .vDecimal 0 len
        | .vBytes _ hexLit _ => if hexLit then .vInt 0 else .vDecimal 0 6
        | _ => .vDecimal 0 6
      else finish dtp
    | none =>
      match date with
      | .vInt _ => .vInt 0
      | .vUint _ => .vInt 0
      | .vDecimal _ len => .vDecimal 0 len
      | .vBytes _ hexLit _ => if hexLit then .vInt 0 else .vDecimal 0 6
      | _ => .vDecimal 0 6

/-- `builtinUnixTimestamp.eval`: with no arguments, the cached statement
instant as an integer; with one argument, null propagation around
`dateTimeUnixTimestamp`.  Arguments are supplied as their evaluation
outcomes (`Except` for the hard-error channel, `Option` for null). -/
def builtinUnixTimestamp.eval (lib : ConvLib) (env : Env)
    (args : List (Except EvalErr (Option EvalV))) : Except EvalErr (Option EvalV) :=
  match args with
  | [] => .ok (some (.vInt (env.now : Int)))
  | a :: _ =>
    match a with
    | .error e => .error e
    | .ok none => .ok none
    | .ok (some date) => .ok (some (dateTimeUnixTimestamp lib env date))

/-- `builtinUnixTimestamp.typeof`: non-nullable `Int64` for the
zero-argument form; for the one-argument form the argument's flags plus
the ambiguous-type bit. -/
def builtinUnixTimestamp.typeof (argc : Nat) (argFlag : TypeFlag) : SqlType × TypeFlag :=
  if argc = 0 then (.int64, .zero)
  else (.int64, argFlag.or flagAmbiguousType)

/-- `maxUnixtime`: exclusive upper bound accepted by FROM_UNIXTIME. -/
def maxUnixtime : Int := 32536771200

/-- The seconds/fraction/precision decomposition performed by the type
switch at the top of `builtinFromUnixtime.eval`: integer kinds pass
through with precision 0, float and non-hex byte strings decompose with
precision 6, a decimal decomposes with its own declared scale, a temporal
uses its own precision, and hex/bit literals reinterpret as unsigned. -/
def builtinFromUnixtime.sfp (lib : ConvLib) : EvalV → Int × Int × Nat
  | .vInt i => (i, 0, 0)
  | .vUint u => (wrapInt64 u, 0, 0)
  | .vFloat f =>
    let m := modfSecNano f
    (m.1, m.2, 6)
  | .vDecimal v len =>
    let sd := ratTruncToInt v
    (sd, ratTruncToInt ((v - (sd : Rat)) * 1000000000), len)
  | .vDate d => (lib.tempToInt (.vDate d), 0, 0)
  | .vTime neg hh mm ss ns p =>
    let v : EvalV := .vTime neg hh mm ss ns p
    if p = 0 then (lib.tempToInt v, 0, 0)
    else
      let dec := lib.tempToDec v
      let sd := ratTruncToInt dec
      (sd, ratTruncToInt ((dec - (sd : Rat)) * 1000000000), p)
  | .vDateTime dt p =>
    let v : EvalV := .vDateTime dt p
    if p = 0 then (lib.tempToInt v, 0, 0)
    else
      let dec := lib.tempToDec v
      let sd := ratTruncToInt dec
      (sd, ratTruncToInt ((dec - (sd : Rat)) * 1000000000), p)
  | .vBytes s hexLit bitLit =>
    if hexLit || bitLit then (wrapInt64 (lib.hexVal s), 0, 0)
    else
      let m := modfSecNano (lib.parseFloat s)
      (m.1, m.2, 6)

/-- `builtinFromUnixtime.eval` in its one-argument form (the
two-argument form post-formats the same datetime through DATE_FORMAT):
decompose the argument, reject seconds outside `[0, maxUnixtime)` with a
soft null, otherwise build the datetime of that Unix instant in the
session timezone with the kind-derived precision. -/
def builtinFromUnixtime.eval1 (lib : ConvLib) (env : Env)
    (arg : Except EvalErr (Option EvalV)) : Except EvalErr (Option EvalV) :=
  match arg with
  | .error e => .error e
  | .ok none => .ok none
  | .ok (some ts) =>
    let s := builtinFromUnixtime.sfp lib ts
    if s.1 < 0 ∨ s.1 ≥ maxUnixtime then .ok none
    else .ok (some (.vDateTime (dtFromUnix s.1 s.2.1 env.tzOffset) s.2.2))

/-- `builtinFromUnixtime.typeof`. -/
def builtinFromUnixtime.typeof (argc : Nat) (argFlag : TypeFlag) : SqlType × TypeFlag :=
  if argc = 1 then (.datetime, argFlag.or flagNullable)
  else (.varchar, argFlag.or flagNullable)

/-- `builtinMakedate.eval`, instrumented with the order in which the two
argument subexpressions are evaluated (argument index pushed when its
`eval` runs): MySQL evaluates the year-day argument (index 1) first, and
the year argument (index 0) only after the year-day null check. -/
def builtinMakedate.evalTrace (lib : ConvLib)
    (arg0 arg1 : Except EvalErr (Option EvalV)) :
    Except EvalErr (Option EvalV) × List Nat :=
  match arg1 with
  | .error e => (.error e, [1])
  | .ok none => (.ok none, [1])
  | .ok (some yearDay) =>
    match arg0 with
    | .error e => (.error e, [1, 0])
    | .ok none => (.ok none, [1, 0])
    | .ok (some year) =>
      let y := evalToInt64 lib year
      let yd := evalToInt64 lib yearDay
      match yearDayToTime y yd with
      | none => (.ok none, [1, 0])
      | some d => (.ok (some (.vDate d)), [1, 0])

/-- Opcode alphabet for the MAKEDATE compilation model; `argOp tag k`
stands for the `k`-th instruction of the subprogram compiled for argument
`tag`. -/
inductive AsmOp where
  | nullCheck1
  | nullCheck1r
  | convert_xi (off : Nat)
  | fn_MAKEDATE
  | jumpDest
  | argOp (tag k : Nat)
  deriving DecidableEq

/-- `builtinMakedate.compile`: the emitted opcode sequence, as a function
of the subprograms `p0`, `p1` compiled for the two arguments and of their
static types — the year-day subprogram (argument 1) is emitted first,
followed by its null check, and only then the year subprogram. -/
def builtinMakedate.compile (p0 p1 : List AsmOp) (t0 t1 : SqlType) : List AsmOp :=
  p1 ++ [.nullCheck1]
    ++ p0 ++ [.nullCheck1r]
    ++ (if t1 = .int64 then [] else [.convert_xi 2])
    ++ (if t0 = .int64 then [] else [.convert_xi 1])
    ++ [.fn_MAKEDATE, .jumpDest]

/-- Modelled from the spec: `datetime.Date.Quarter` (outside this file)
derives the quarter from the month; the zero month yields 0. -/
def DateV.Quarter (d : DateV) : Int :=
  Int.fdiv (d.month + 2) 3

/-- `datetime.Date.Day` day number of the day count of a date (used by
`ToStdTime(...).YearDay()` and `Weekday()`). -/
def DateV.dayCount (d : DateV) : Int :=
  daysFromCivil d.year d.month d.day

/-- `builtinDate.eval` (the DATE function): date coercion with soft null
on failure, no zero-date rejection — the zero date passes through. -/
def builtinDate.eval (lib : ConvLib) (arg : Except EvalErr (Option EvalV)) :
    Except EvalErr (Option EvalV) :=
  match arg with
  | .error e => .error e
  | .ok none => .ok none
  | .ok (some date) =>
    match evalToDate lib date with
    | none => .ok none
    | some d => .ok (some (.vDate d))

/-- `builtinDayOfMonth.eval`: day component, no zero-date rejection. -/
def builtinDayOfMonth.eval (lib : ConvLib) (arg : Except EvalErr (Option EvalV)) :
    Except EvalErr (Option EvalV) :=
  match arg with
  | .error e => .error e
  | .ok none => .ok none
  | .ok (some date) =>
    match evalToDate lib date with
    | none => .ok none
    | some d => .ok (some (.vInt d.day))

/-- `builtinDayOfWeek.eval`: 1-origin Sunday-start weekday
(`Weekday() + 1`), rejecting the zero date with a soft null. -/
def builtinDayOfWeek.eval (lib : ConvLib) (arg : Except EvalErr (Option EvalV)) :
    Except EvalErr (Option EvalV) :=
  match arg with
  | .error e => .error e
  | .ok none => .ok none
  | .ok (some date) =>
    match evalToDate lib date with
    | none => .ok none
    | some d =>
      if d.isZero then .ok none
      else .ok (some (.vInt (weekdayOfDays d.dayCount + 1)))

/-- `builtinDayOfYear.eval`: day-of-year (`YearDay()`), rejecting the
zero date with a soft null. -/
def builtinDayOfYear.eval (lib : ConvLib) (arg : Except EvalErr (Option EvalV)) :
    Except EvalErr (Option EvalV) :=
  match arg with
  | .error e => .error e
  | .ok none => .ok none
  | .ok (some date) =>
    match evalToDate lib date with
    | none => .ok none
    | some d =>
      if d.isZero then .ok none
      else .ok (some (.vInt (d.dayCount - daysFromCivil d.year 1 1 + 1)))

/-- `builtinMonth.eval`: month component, no zero-date rejection. -/
def builtinMonth.eval (lib : ConvLib) (arg : Except EvalErr (Option EvalV)) :
    Except EvalErr (Option EvalV) :=
  match arg with
  | .error e => .error e
  | .ok none => .ok none
  | .ok (some date) =>
    match evalToDate lib date with
    | none => .ok none
    | some d => .ok (some (.vInt d.month))

/-- `builtinQuarter.eval`: quarter component, no zero-date rejection. -/
def builtinQuarter.eval (lib : ConvLib) (arg : Except EvalErr (Option EvalV)) :
    Except EvalErr (Option EvalV) :=
  match arg with
  | .error e => .error e
  | .ok none => .ok none
  | .ok (some date) =>
    match evalToDate lib date with
    | none => .ok none
    | some d => .ok (some (.vInt d.Quarter))

/-- `builtinYear.eval`: year component, no zero-date rejection. -/
def builtinYear.eval (lib : ConvLib) (arg : Except EvalErr (Option EvalV)) :
    Except EvalErr (Option EvalV) :=
  match arg with
  | .error e => .error e
  | .ok none => .ok none
  | .ok (some date) =>
    match evalToDate lib date with
    | none => .ok none
    | some d => .ok (some (.vInt d.year))

/-- `builtinWeekDay.eval`: 0-origin Monday-start weekday
(`(Weekday() + 6) % 7`), rejecting the zero date with a soft null. -/
def builtinWeekDay.eval (lib : ConvLib) (arg : Except EvalErr (Option EvalV)) :
    Except EvalErr (Option EvalV) :=
  match arg with
  | .error e => .error e
  | .ok none => .ok none
  | .ok (some date) =>
    match evalToDate lib date with
    | none => .ok none
    | some d =>
      if d.isZero then .ok none
      else .ok (some (.vInt (Int.emod (weekdayOfDays d.dayCount + 6) 7)))

/-- `builtinWeekOfYear.eval`: ISO week-of-year (mode-independent),
rejecting the zero date with a soft null. -/
def builtinWeekOfYear.eval (lib : ConvLib) (arg : Except EvalErr (Option EvalV)) :
    Except EvalErr (Option EvalV) :=
  match arg with
  | .error e => .error e
  | .ok none => .ok none
  | .ok (some date) =>
    match evalToDate lib date with
    | none => .ok none
    | some d =>
      if d.isZero then .ok none
      else .ok (some (.vInt (lib.isoWeek d).2))

/-- `builtinWeek.eval`: week number under an optional mode argument
(default 0); the zero date is rejected with a soft null before the mode
argument is consulted. -/
def builtinWeek.eval (lib : ConvLib) (arg : Except EvalErr (Option EvalV))
    (modeArg : Option (Except EvalErr (Option EvalV))) : Except EvalErr (Option EvalV) :=
  match arg with
  | .error e => .error e
  | .ok none => .ok none
  | .ok (some date) =>
    match evalToDate lib date with
    | none => .ok none
    | some d =>
      if d.isZero then .ok none
      else
        match modeArg with
        | none => .ok (some (.vInt (lib.week d 0)))
        | some m =>
          match m with
          | .error e => .error e
          | .ok none => .ok none
          | .ok (some mv) => .ok (some (.vInt (lib.week d (evalToInt64 lib mv))))

/-- `builtinYearWeek.eval`: year-week number under an optional mode
argument (default 0); the zero date is rejected with a soft null before
the mode argument is consulted. -/
def builtinYearWeek.eval (lib : ConvLib) (arg : Except EvalErr (Option EvalV))
    (modeArg : Option (Except EvalErr (Option EvalV))) : Except EvalErr (Option EvalV) :=
  match arg with
  | .error e => .error e
  | .ok none => .ok none
  | .ok (some date) =>
    match evalToDate lib date with
    | none => .ok none
    | some d =>
      if d.isZero then .ok none
      else
        match modeArg with
        | none => .ok (some (.vInt (lib.yearWeek d 0)))
        | some m =>
          match m with
          | .error e => .error e
          | .ok none => .ok none
          | .ok (some mv) => .ok (some (.vInt (lib.yearWeek d (evalToInt64 lib mv))))

/-- C5: MAKETIME with non-null hour, minute, second returns null if the
minute is outside [0,59] or the second outside [0,60) (outside [0,59] for
integer seconds); otherwise an hour beyond ±838 clamps to ±838 with
seconds forced to 59, so (900, 30, 30) yields +838:59:59 (packed
8385959) and (-900, 0, 0) yields -838:59:59; the sign of the result is
determined solely by the sign of the hour operand. -/
theorem C5_maketime_clamp (h m s : Int) (sd : Rat) :
    ((m < 0 ∨ m > 59 ∨ s < 0 ∨ s > 59) → makeTime_i h m s = none) ∧
    ((m < 0 ∨ m > 59 ∨ sd < 0 ∨ sd ≥ 60) → makeTime_d h m sd = none) ∧
    ((m < 0 ∨ m > 59 ∨ sd < 0 ∨ sd ≥ 60) → makeTime_f h m sd = none) ∧
    (0 ≤ m → m ≤ 59 → 0 ≤ s → s ≤ 59 → 838 < h → makeTime_i h m s = some 8385959) ∧
    (0 ≤ m → m ≤ 59 → 0 ≤ s → s ≤ 59 → h < -838 → makeTime_i h m s = some (-8385959)) ∧
    (∀ v, makeTime_i h m s = some v → (v < 0 ↔ h < 0)) ∧
    makeTime_i 900 30 30 = some 8385959 ∧
    makeTime_i (-900) 0 0 = some (-8385959) := by
  refine ⟨?_, ?_, ?_, ?_, ?_, ?_, by decide, by decide⟩
  · intro hbad
    simp only [makeTime_i, if_pos hbad]
  · intro hbad
    simp only [makeTime_d, if_pos hbad]
  · intro hbad
    simp only [makeTime_f, if_pos hbad]
  · intro h1 h2 h3 h4 h5
    have hcond : ¬ (m < 0 ∨ m > 59 ∨ s < 0 ∨ s > 59) := by omega
    have hc : h > 838 ∨ h < -838 := by omega
    simp only [makeTime_i, if_neg hcond, clampHourMinute, decide_eq_true_eq,
      if_pos hc, if_pos (by omega : h > 0)]
    norm_num
  · intro h1 h2 h3 h4 h5
    have hcond : ¬ (m < 0 ∨ m > 59 ∨ s < 0 ∨ s > 59) := by omega
    have hc : h > 838 ∨ h < -838 := by omega
    simp only [makeTime_i, if_neg hcond, clampHourMinute, decide_eq_true_eq,
      if_pos hc, if_neg (by omega : ¬ h > 0)]
    norm_num
  · intro v hv
    simp only [makeTime_i, clampHourMinute, decide_eq_true_eq] at hv
    split_ifs at hv <;> simp_all <;> omega

/-- Witness for C5 at concrete inputs. -/
theorem C5_maketime_clamp_witness :
    makeTime_i 900 30 30 = some 8385959 ∧ makeTime_d 900 30 (-1) = none :=
  ⟨(C5_maketime_clamp 900 30 30 (-1)).2.2.2.1 (by decide) (by decide) (by decide)
      (by decide) (by decide),
    (C5_maketime_clamp 900 30 30 (-1)).2.1 (by norm_num)⟩

/-- C8: MAKEDATE's year pivot maps 0–69 to 2000–2069 and 70–99 to
1900–1999, so (70, 1) and (69, 1) land in different centuries, and its
day-of-year arithmetic is calendar-correct: (2024, 60) is 2024-02-29. -/
theorem C8_makedate_pivot (lib : ConvLib) (y : Int) :
    (0 ≤ y → y < 70 → pivotYear y = y + 2000) ∧
    (70 ≤ y → y < 100 → pivotYear y = y + 1900) ∧
    yearDayToTime 70 1 = some ⟨1970, 1, 1⟩ ∧
    yearDayToTime 69 1 = some ⟨2069, 1, 1⟩ ∧
    yearDayToTime 2024 60 = some ⟨2024, 2, 29⟩ ∧
    builtinMakedate.evalTrace lib (.ok (some (.vInt 2024))) (.ok (some (.vInt 60)))
      = (.ok (some (.vDate ⟨2024, 2, 29⟩)), [1, 0]) := by
  refine ⟨?_, ?_, by decide, by decide, by decide, ?_⟩
  · intro h1 h2
    unfold pivotYear
    split_ifs <;> omega
  · intro h1 h2
    unfold pivotYear
    split_ifs <;> omega
  · simp only [builtinMakedate.evalTrace, evalToInt64]
    norm_num [show yearDayToTime 2024 60 = some ⟨2024, 2, 29⟩ from by decide]

/-- Witness for C8 at concrete inputs. -/
theorem C8_makedate_pivot_witness :
    pivotYear 5 = 5 + 2000 ∧ pivotYear 85 = 85 + 1900 :=
  ⟨(C8_makedate_pivot trivLib 5).1 (by decide) (by decide),
    (C8_makedate_pivot trivLib 85).2.1 (by decide) (by decide)⟩

/-- C3: MAKEDATE evaluates its second argument (day-of-year) before its
first (year): a null or error from the second argument returns
null/propagates the error without evaluating the first argument at all
(its index never enters the trace), and only then is the first argument
evaluated and null-checked; the compiled code emits the second argument's
subprogram and its null check before the first argument's subprogram. -/
theorem C3_makedate_eval_order (lib : ConvLib) (a0 a1 : Except EvalErr (Option EvalV)) :
    (∀ e, a1 = .error e → builtinMakedate.evalTrace lib a0 a1 = (.error e, [1])) ∧
    (a1 = .ok none → builtinMakedate.evalTrace lib a0 a1 = (.ok none, [1])) ∧
    (∀ v, a1 = .ok (some v) → (builtinMakedate.evalTrace lib a0 a1).2 = [1, 0]) ∧
    (∀ v, a1 = .ok (some v) → a0 = .ok none →
      builtinMakedate.evalTrace lib a0 a1 = (.ok none, [1, 0])) ∧
    (∀ p0 p1 t0 t1, ∃ rest, builtinMakedate.compile p0 p1 t0 t1
      = p1 ++ [.nullCheck1] ++ p0 ++ rest) := by
  refine ⟨?_, ?_, ?_, ?_, ?_⟩
  · intro e he
    subst he
    rfl
  · intro he
    subst he
    rfl
  · intro v hv
    subst hv
    cases a0 with
    | error e => rfl
    | ok o =>
      cases o with
      | none => rfl
      | some w =>
        simp only [builtinMakedate.evalTrace]
        cases yearDayToTime (evalToInt64 lib w) (evalToInt64 lib v) <;> rfl
  · intro v hv h0
    subst hv
    subst h0
    rfl
  · intro p0 p1 t0 t1
    refine ⟨[AsmOp.nullCheck1r] ++ (if t1 = .int64 then [] else [.convert_xi 2])
      ++ (if t0 = .int64 then [] else [.convert_xi 1]) ++ [.fn_MAKEDATE, .jumpDest], ?_⟩
    simp [builtinMakedate.compile]

/-- Witness for C3 at concrete inputs. -/
theorem C3_makedate_eval_order_witness :
    builtinMakedate.evalTrace trivLib (.ok (some (.vInt 2024))) (.ok none)
      = (.ok none, [1]) :=
  (C3_makedate_eval_order trivLib (.ok (some (.vInt 2024))) (.ok none)).2.1 rfl

/-- C10: on the zero date (a non-null input) the extraction builtins
diverge: DAYOFWEEK, DAYOFYEAR, WEEK, WEEKDAY, WEEKOFYEAR and YEARWEEK
return null, while DAYOFMONTH, MONTH, QUARTER and YEAR return the integer
0 component, and DATE returns the zero date value itself. -/
theorem C10_zero_date_divergence (lib : ConvLib) :
    builtinDayOfWeek.eval lib (.ok (some (.vDate zeroDateV))) = .ok none ∧
    builtinDayOfYear.eval lib (.ok (some (.vDate zeroDateV))) = .ok none ∧
    builtinWeek.eval lib (.ok (some (.vDate zeroDateV))) none = .ok none ∧
    builtinWeek.eval lib (.ok (some (.vDate zeroDateV)))
      (some (.ok (some (.vInt 1)))) = .ok none ∧
    builtinWeekDay.eval lib (.ok (some (.vDate zeroDateV))) = .ok none ∧
    builtinWeekOfYear.eval lib (.ok (some (.vDate zeroDateV))) = .ok none ∧
    builtinYearWeek.eval lib (.ok (some (.vDate zeroDateV))) none = .ok none ∧
    builtinDayOfMonth.eval lib (.ok (some (.vDate zeroDateV))) = .ok (some (.vInt 0)) ∧
    builtinMonth.eval lib (.ok (some (.vDate zeroDateV))) = .ok (some (.vInt 0)) ∧
    builtinQuarter.eval lib (.ok (some (.vDate zeroDateV))) = .ok (some (.vInt 0)) ∧
    builtinYear.eval lib (.ok (some (.vDate zeroDateV))) = .ok (some (.vInt 0)) ∧
    builtinDate.eval lib (.ok (some (.vDate zeroDateV))) = .ok (some (.vDate zeroDateV)) :=
  ⟨rfl, rfl, rfl, rfl, rfl, rfl, rfl, rfl, rfl, rfl, rfl, rfl⟩

/-- Witness for C10 at a concrete library instantiation. -/
theorem C10_zero_date_divergence_witness :
    builtinDayOfWeek.eval trivLib (.ok (some (.vDate zeroDateV))) = .ok none ∧
    builtinDayOfMonth.eval trivLib (.ok (some (.vDate zeroDateV))) = .ok (some (.vInt 0)) :=
  ⟨(C10_zero_date_divergence trivLib).1, (C10_zero_date_divergence trivLib).2.2.2.2.2.2.2.1⟩

/-- C1: the claim asserts that the type descriptor `compile` returns
always equals the type `typeof` reports, in particular for a
DATE_ADD/DATE_SUB node whose operand has a non-temporal static type.
The code contradicts this: for an `Int64` (non-temporal) operand and the
DAY unit, `typeof` reports `Char` while `compile` returns `VarChar`. -/
theorem C1_datemath_typeof_compile_mismatch :
    (builtinDateMath.typeof ⟨false, .day, collationBinary⟩ .int64 .zero).1 = .char ∧
    (builtinDateMath.compile ⟨false, .day, collationBinary⟩
      ⟨.int64, collationNumeric, .zero⟩ 45).2.typ = .varchar ∧
    SqlType.char ≠ SqlType.varchar := by
  refine ⟨rfl, rfl, by decide⟩

/-- C2 counterexample: SYSDATE reads the live system clock, so two
evaluations with one environment instance return different instants when
the injected clock advances between the calls — refuting the claim that
every clock-reading builtin depends only on the cached instant. -/
theorem C2_sysdate_counterexample :
    builtinSysdate.eval ⟨0⟩ ⟨100, 0⟩ 100 ≠ builtinSysdate.eval ⟨0⟩ ⟨100, 0⟩ 101 := by
  decide

/-- C2 (amended): every clock-reading builtin except SYSDATE — NOW (and
its time-only/UTC variants), CURDATE, UTC_DATE, and zero-argument
UNIX_TIMESTAMP — returns a result that depends only on the environment's
cached instant, unchanged under any advance of the live system clock;
SYSDATE instead reads the live clock on each call. -/
theorem C2_cached_statement_instant (call : builtinNow) (lib : ConvLib) (env : Env)
    (sys1 sys2 : Nat) :
    call.eval env sys1 = call.eval env sys2 ∧
    builtinCurdate.eval env sys1 = builtinCurdate.eval env sys2 ∧
    builtinUtcDate.eval env sys1 = builtinUtcDate.eval env sys2 ∧
    builtinUnixTimestamp.eval lib env [] = .ok (some (.vInt (env.now : Int))) ∧
    (∀ p : builtinSysdate, builtinSysdate.eval p env sys1
      = ⟨.datetime, dtFromUnix (sys1 : Int) 0 env.tzOffset, p.prec⟩) :=
  ⟨rfl, rfl, rfl, rfl, fun _ => rfl⟩

/-- Witness for C2 (amended) at concrete inputs. -/
theorem C2_cached_statement_instant_witness :
    builtinNow.eval ⟨false, false, 0⟩ ⟨100, 0⟩ 0 = builtinNow.eval ⟨false, false, 0⟩ ⟨100, 0⟩ 50 :=
  (C2_cached_statement_instant ⟨false, false, 0⟩ trivLib ⟨100, 0⟩ 0 50).1

/-- C4: FROM_UNIXTIME with a non-null argument rejects seconds outside
[0, 32536771200) with a soft null (not a hard error): seconds = 0
succeeds with the Unix epoch, seconds = 32536771200 returns null, and
seconds = -1 returns null. -/
theorem C4_from_unixtime_bounds (lib : ConvLib) (env envU : Env) (ts : EvalV)
    (hsec : (builtinFromUnixtime.sfp lib ts).1 < 0
      ∨ (builtinFromUnixtime.sfp lib ts).1 ≥ maxUnixtime)
    (htz : envU.tzOffset = 0) :
    builtinFromUnixtime.eval1 lib env (.ok (some ts)) = .ok none ∧
    builtinFromUnixtime.eval1 lib envU (.ok (some (.vInt 0)))
      = .ok (some (.vDateTime ⟨⟨1970, 1, 1⟩, 0, 0, 0, 0⟩ 0)) ∧
    (∀ i : Int, (i < 0 ∨ i ≥ maxUnixtime) →
      builtinFromUnixtime.eval1 lib env (.ok (some (.vInt i))) = .ok none) ∧
    builtinFromUnixtime.eval1 lib env (.ok (some (.vInt 32536771200))) = .ok none ∧
    builtinFromUnixtime.eval1 lib env (.ok (some (.vInt (-1)))) = .ok none := by
  refine ⟨?_, ?_, ?_, ?_, ?_⟩
  · simp only [builtinFromUnixtime.eval1]
    rw [if_pos hsec]
  · obtain ⟨n, tz⟩ := envU
    simp only at htz
    subst htz
    rfl
  · intro i hi
    simp only [builtinFromUnixtime.eval1, builtinFromUnixtime.sfp]
    rw [if_pos hi]
  · simp only [builtinFromUnixtime.eval1, builtinFromUnixtime.sfp]
    rw [if_pos (by decide : (32536771200 : Int) < 0 ∨ (32536771200 : Int) ≥ maxUnixtime)]
  · simp only [builtinFromUnixtime.eval1, builtinFromUnixtime.sfp]
    rw [if_pos (by decide : (-1 : Int) < 0 ∨ (-1 : Int) ≥ maxUnixtime)]

/-- Witness for C4: an out-of-range input under a concrete library and
environment, and the epoch success in the UTC environment. -/
theorem C4_from_unixtime_bounds_witness :
    builtinFromUnixtime.eval1 trivLib ⟨7, 3600⟩ (.ok (some (.vInt (-5)))) = .ok none ∧
    builtinFromUnixtime.eval1 trivLib ⟨7, 0⟩ (.ok (some (.vInt 0)))
      = .ok (some (.vDateTime ⟨⟨1970, 1, 1⟩, 0, 0, 0, 0⟩ 0)) :=
  ⟨(C4_from_unixtime_bounds trivLib ⟨7, 3600⟩ ⟨7, 0⟩ (.vInt (-5)) (by decide) rfl).1,
    (C4_from_unixtime_bounds trivLib ⟨7, 3600⟩ ⟨7, 0⟩ (.vInt (-5)) (by decide) rfl).2.1⟩

/-- C7: FROM_UNIXTIME derives its fractional precision from the
argument's native kind: signed or unsigned integers yield 0, floats and
(non-hex/bit) strings yield 6 via integral/fractional decomposition, and
a decimal yields its own declared scale. -/
theorem C7_from_unixtime_precision (lib : ConvLib) (i : Int) (u : Nat) (q v : Rat)
    (len : Nat) (s : String) :
    builtinFromUnixtime.sfp lib (.vInt i) = (i, 0, 0) ∧
    builtinFromUnixtime.sfp lib (.vUint u) = (wrapInt64 u, 0, 0) ∧
    (builtinFromUnixtime.sfp lib (.vFloat q)).2.2 = 6 ∧
    (builtinFromUnixtime.sfp lib (.vBytes s false false)).2.2 = 6 ∧
    (builtinFromUnixtime.sfp lib (.vDecimal v len)).2.2 = len ∧
    (builtinFromUnixtime.sfp lib (.vFloat q)).1 = ratTruncToInt q ∧
    (builtinFromUnixtime.sfp lib (.vFloat q)).2.1
      = ratTruncToInt ((q - (ratTruncToInt q : Rat)) * 1000000000) ∧
    (builtinFromUnixtime.sfp lib (.vDecimal v len)).1 = ratTruncToInt v :=
  ⟨rfl, rfl, rfl, rfl, rfl, rfl, rfl, rfl⟩

/-- Witness for C7 at concrete inputs. -/
theorem C7_from_unixtime_precision_witness :
    builtinFromUnixtime.sfp trivLib (.vInt 5) = (5, 0, 0) ∧
    (builtinFromUnixtime.sfp trivLib (.vDecimal (3 / 2) 2)).2.2 = 2 :=
  ⟨(C7_from_unixtime_precision trivLib 5 0 0 (3 / 2) 2 "x").1,
    (C7_from_unixtime_precision trivLib 5 0 0 (3 / 2) 2 "x").2.2.2.2.1⟩

/-- C6: DATE_ADD/DATE_SUB derives its result type by combining the
operand's temporal type with the interval unit's parts: a Date operand
with a time-part-free unit stays Date; a Time operand with a
date-part-free unit stays Time; Datetime/Timestamp operands, a Date
operand with a time-bearing unit, or a Time operand with a date-bearing
unit yield Datetime; a non-temporal operand falls back to a textual
result type (Char); in particular a one-hour interval promotes a Date
operand to Datetime while a one-day interval keeps it Date. -/
theorem C6_datemath_result_type (u : IntervalType) (sub : Bool) (col : CollationId)
    (f : TypeFlag) (tt : SqlType) :
    (u.HasTimeParts = false →
      builtinDateMath.typeof ⟨sub, u, col⟩ .date f = (.date, f.or flagNullable)) ∧
    (u.HasDateParts = false →
      builtinDateMath.typeof ⟨sub, u, col⟩ .time f = (.time, f.or flagNullable)) ∧
    builtinDateMath.typeof ⟨sub, u, col⟩ .datetime f = (.datetime, f.or flagNullable) ∧
    builtinDateMath.typeof ⟨sub, u, col⟩ .timestamp f = (.datetime, f.or flagNullable) ∧
    (u.HasTimeParts = true →
      builtinDateMath.typeof ⟨sub, u, col⟩ .date f = (.datetime, f.or flagNullable)) ∧
    (u.HasDateParts = true →
      builtinDateMath.typeof ⟨sub, u, col⟩ .time f = (.datetime, f.or flagNullable)) ∧
    (tt ≠ .date → tt ≠ .time → tt ≠ .datetime → tt ≠ .timestamp →
      builtinDateMath.typeof ⟨sub, u, col⟩ tt f = (.char, f.or flagNullable)) ∧
    builtinDateMath.typeof ⟨sub, .hour, col⟩ .date f = (.datetime, f.or flagNullable) ∧
    builtinDateMath.typeof ⟨sub, .day, col⟩ .date f = (.date, f.or flagNullable) := by
  refine ⟨?_, ?_, ?_, ?_, ?_, ?_, ?_, ?_, ?_⟩
  · intro hu
    simp [builtinDateMath.typeof, hu]
  · intro hu
    simp [builtinDateMath.typeof, hu]
  · simp [builtinDateMath.typeof]
  · simp [builtinDateMath.typeof]
  · intro hu
    simp [builtinDateMath.typeof, hu]
  · intro hu
    simp [builtinDateMath.typeof, hu]
  · intro h1 h2 h3 h4
    simp [builtinDateMath.typeof, h1, h2, h3, h4]
  · simp [builtinDateMath.typeof, IntervalType.HasTimeParts]
  · simp [builtinDateMath.typeof, IntervalType.HasTimeParts]

/-- Witness for C6 at concrete inputs. -/
theorem C6_datemath_result_type_witness :
    builtinDateMath.typeof ⟨false, .day, collationBinary⟩ .date .zero
      = (.date, TypeFlag.zero.or flagNullable) ∧
    builtinDateMath.typeof ⟨false, .hour, collationBinary⟩ .date .zero
      = (.datetime, TypeFlag.zero.or flagNullable) :=
  ⟨(C6_datemath_result_type .day false collationBinary .zero .int64).1 rfl,
    (C6_datemath_result_type .hour false collationBinary .zero .int64).2.2.2.2.1 rfl⟩

/-- C9: the builtins whose typeof omits the nullable flag — NOW (all
variants), SYSDATE, CURDATE, UTC_DATE, zero-argument UNIX_TIMESTAMP, and
one-argument UNIX_TIMESTAMP over a non-nullable argument — never
evaluate to null when their arguments evaluate without error to non-null
values; in particular one-argument UNIX_TIMESTAMP on a non-null value
that fails datetime conversion returns integer zero (integer and
hex-literal kinds) or decimal zero with kind-derived scale, never null.
(NOW, SYSDATE, CURDATE and UTC_DATE return a non-optional `RawRes` by
construction, so they cannot produce null.) -/
theorem C9_nonnullable_never_null (lib : ConvLib) (env : Env) (date : EvalV)
    (f : TypeFlag) (hf : f.nullable = false) :
    (∀ call : builtinNow, (call.typeof).2.nullable = false) ∧
    (∀ sd : builtinSysdate, (sd.typeof).2.nullable = false) ∧
    builtinCurdate.typeof.2.nullable = false ∧
    builtinUtcDate.typeof.2.nullable = false ∧
    (builtinUnixTimestamp.typeof 0 f).2.nullable = false ∧
    (builtinUnixTimestamp.typeof 1 f).2.nullable = false ∧
    builtinUnixTimestamp.eval lib env [] = .ok (some (.vInt (env.now : Int))) ∧
    (∃ r, builtinUnixTimestamp.eval lib env [.ok (some date)] = .ok (some r)) ∧
    (∀ i : Int, lib.parseDateTime (.vInt i) = none →
      dateTimeUnixTimestamp lib env (.vInt i) = .vInt 0) ∧
    (∀ v len, lib.parseDateTime (.vDecimal v len) = none →
      dateTimeUnixTimestamp lib env (.vDecimal v len) = .vDecimal 0 len) ∧
    (∀ s hx bt, lib.parseDateTime (.vBytes s hx bt) = none →
      dateTimeUnixTimestamp lib env (.vBytes s hx bt)
        = (if hx then .vInt 0 else .vDecimal 0 6)) := by
  refine ⟨?_, fun _ => rfl, rfl, rfl, rfl, ?_, rfl, ⟨_, rfl⟩, ?_, ?_, ?_⟩
  · intro call
    unfold builtinNow.typeof
    split_ifs <;> rfl
  · simp [builtinUnixTimestamp.typeof, TypeFlag.or, flagAmbiguousType, hf]
  · intro i hp
    simp [dateTimeUnixTimestamp, hp]
  · intro v len hp
    simp [dateTimeUnixTimestamp, hp]
  · intro s hx bt hp
    simp [dateTimeUnixTimestamp, hp]

/-- Witness for C9 with a concrete failing conversion. -/
theorem C9_nonnullable_never_null_witness :
    dateTimeUnixTimestamp trivLib ⟨0, 0⟩ (.vInt 5) = .vInt 0 ∧
    (builtinUnixTimestamp.typeof 1 .zero).2.nullable = false :=
  ⟨(C9_nonnullable_never_null trivLib ⟨0, 0⟩ (.vInt 5) .zero rfl).2.2.2.2.2.2.2.2.1 5 rfl,
    (C9_nonnullable_never_null trivLib ⟨0, 0⟩ (.vInt 5) .zero rfl).2.2.2.2.2.1⟩

end EvalEngine
